import Mathlib

/-!
Verification of the SendZen WhatsApp message SDK (TypeScript sources under
`src/`).  The definitions below are a shallow embedding of the runtime
behaviour of `src/types/index.ts`, `src/services/whatsapp-service.ts` and
`src/services/template-service.ts`:

* TypeScript optional fields become `Option`; JavaScript truthiness of an
  optional string (`if (x.link)`) is `truthyStr` (present and non-empty).
* `throw new Error(...)` becomes `Except.error` with one `SendError`
  constructor per distinct throw site; a function returning normally becomes
  `Except.ok`.  An `Except.error` result means the send aborts before any
  HTTP request is issued.
* The two regular expressions in the sources are embedded as data for a
  small backtracking matcher `remainders` whose acceptance test mirrors
  `RegExp.test` on the anchored patterns used (a pattern matches iff some
  way of consuming the whole string succeeds).
* `new Set(xs).size !== xs.length` (the duplicate checks) becomes
  `xs.dedup.length ≠ xs.length`.
* The wire body handed to the HTTP layer is modelled by the JSON-like value
  `JVal`; object fields are listed in JavaScript insertion order and a field
  assigned `undefined` is `JVal.undefined`.
-/

namespace SendZen

/-- Equality of validation results is decidable, so concrete runs of the
embedded functions can be checked by `decide`. -/
instance {ε α : Type} [DecidableEq ε] [DecidableEq α] : DecidableEq (Except ε α) :=
  fun a b =>
  match a, b with
  | .ok x, .ok y =>
    if h : x = y then isTrue (by rw [h]) else isFalse (fun hc => h (Except.ok.inj hc))
  | .error x, .error y =>
    if h : x = y then isTrue (by rw [h]) else isFalse (fun hc => h (Except.error.inj hc))
  | .ok _, .error _ => isFalse (fun hc => Except.noConfusion hc)
  | .error _, .ok _ => isFalse (fun hc => Except.noConfusion hc)

/-- JavaScript truthiness of an optional string field: the field is present
and not the empty string. -/
def truthyStr : Option String → Bool
  | some s => s != ""
  | none => false

/-! ### A small regex matcher

`Reg` is the fragment of regular expressions needed by the two patterns in
the sources: character classes, concatenation, alternation and the empty
word (bounded repetition `{0,3}` and `{9}` are expanded into alternation
and concatenation).  `remainders r cs` lists every suffix of `cs` that can
remain after `r` consumes a prefix; the anchored test `^r$` succeeds iff the
empty suffix is reachable. -/

inductive Reg where
  | eps : Reg
  | cls : (Char → Bool) → Reg
  | seq : Reg → Reg → Reg
  | alt : Reg → Reg → Reg

def remainders : Reg → List Char → List (List Char)
  | .eps, cs => [cs]
  | .cls _, [] => []
  | .cls p, c :: cs => if p c then [cs] else []
  | .seq a b, cs => (remainders a cs).flatMap (remainders b)
  | .alt a b, cs => remainders a cs ++ remainders b cs

/-- `RegExp.test` for an anchored pattern: some complete match of the whole
string exists. -/
def regexTest (r : Reg) (s : String) : Bool :=
  decide ([] ∈ remainders r s.data)

/-- Character class `[0-9]`. -/
def isDigitChar (c : Char) : Bool := 48 ≤ c.toNat && c.toNat ≤ 57

/-- Character class `[1-9]`. -/
def isNonZeroDigit (c : Char) : Bool := 49 ≤ c.toNat && c.toNat ≤ 57

/-- Character class `[a-z]`. -/
def isLowerAlpha (c : Char) : Bool := 97 ≤ c.toNat && c.toNat ≤ 122

/-- Character class `[A-Z]`. -/
def isUpperAlpha (c : Char) : Bool := 65 ≤ c.toNat && c.toNat ≤ 90

/-- The literal `_` in the language-code pattern. -/
def isUnderscore (c : Char) : Bool := c == '_'

/-- `[0-9]{n}`: `n` digits in a row. -/
def digitsN : Nat → Reg
  | 0 => .eps
  | n + 1 => .seq (.cls isDigitChar) (digitsN n)

/-- `[0-9]{0,3}` expanded into alternations. -/
def digits0to3 : Reg :=
  .alt .eps (.seq (.cls isDigitChar)
    (.alt .eps (.seq (.cls isDigitChar)
      (.alt .eps (.cls isDigitChar)))))

/-- The pattern `^[1-9][0-9]{0,3}[1-9][0-9]{9}$` from
`validatePhoneNumber` (src/types/index.ts). -/
def phoneRegex : Reg :=
  .seq (.cls isNonZeroDigit)
    (.seq digits0to3
      (.seq (.cls isNonZeroDigit) (digitsN 9)))

/-- `validatePhoneNumber` (src/types/index.ts): the regex test plus the
`phone.length <= 15` conjunct. -/
def validatePhoneNumber (phone : String) : Bool :=
  regexTest phoneRegex phone && decide (phone.length ≤ 15)

/-- The pattern `^[a-z]{2}_[A-Z]{2}$` from `validateLanguageCode`
(src/services/template-service.ts). -/
def langCodeRegex : Reg :=
  .seq (.cls isLowerAlpha)
    (.seq (.cls isLowerAlpha)
      (.seq (.cls isUnderscore)
        (.seq (.cls isUpperAlpha) (.cls isUpperAlpha))))

/-- `validateLanguageCode` (src/services/template-service.ts). -/
def validateLanguageCode (langCode : String) : Bool :=
  regexTest langCodeRegex langCode

/-- Head of a character list is a non-zero digit. -/
def headIsNonZero : List Char → Bool
  | c :: _ => isNonZeroDigit c
  | [] => false

/-- Modelled from the spec's words (for the amended phone-number claim):
the strings of 11 to 14 digits whose first digit is non-zero and whose
tenth-from-last digit (the start of the trailing 10-digit segment) is
non-zero.  This is the characterization the code's predicate is compared
against. -/
def phoneNumberSpec (s : String) : Bool :=
  s.data.all isDigitChar
    && decide (11 ≤ s.data.length) && decide (s.data.length ≤ 14)
    && headIsNonZero s.data
    && headIsNonZero (s.data.drop (s.data.length - 10))

/-! ### Template data model (src/services/template-service.ts) -/

/-- `TemplateComponentType`. -/
inductive TemplateComponentType where
  | header | body | footer | button
deriving DecidableEq, Repr

/-- `TemplateParameterType`. -/
inductive TemplateParameterType where
  | text | image | video | document
deriving DecidableEq, Repr

/-- `ButtonSubType`. -/
inductive ButtonSubType where
  | quick_reply | phone_number | url | copy_code
deriving DecidableEq, Repr

/-- A `{link?, id?}` media object. -/
structure MediaObject where
  link : Option String
  id : Option String
deriving DecidableEq, Repr

/-- `TemplateParameter`. -/
structure TemplateParameter where
  type : TemplateParameterType
  text : Option String
  image : Option MediaObject
  video : Option MediaObject
  document : Option MediaObject
deriving DecidableEq, Repr

/-- `TemplateComponent`.  `index` is the zero-based button index. -/
structure TemplateComponent where
  type : TemplateComponentType
  parameters : Option (List TemplateParameter)
  sub_type : Option ButtonSubType
  index : Option Nat
deriving DecidableEq, Repr

/-- An interactive message button payload entry `{id, title}`. -/
structure InteractiveReplyButton where
  id : String
  title : String
deriving DecidableEq, Repr

/-- One constructor per distinct `throw new Error(...)` site in the
sources, carrying the value interpolated into the message where there is
one. -/
inductive SendError where
  | invalidFromPhone : String → SendError
  | invalidToPhone : String → SendError
  | imageMissingLinkOrId : SendError
  | documentMissingLinkOrId : SendError
  | videoMissingLinkOrId : SendError
  | audioMissingLinkOrId : SendError
  | invalidLanguageCode : String → SendError
  | maxQuickReplyButtons : SendError
  | maxPhoneNumberButtons : SendError
  | maxUrlButtons : SendError
  | maxCopyCodeButtons : SendError
  | quickReplyCombined : SendError
  | copyCodeCombined : SendError
  | duplicateButtonIndices : SendError
  | duplicateButtonTexts : SendError
  | componentMustHaveParameters : TemplateComponentType → SendError
  | interactiveNoButtons : SendError
  | interactiveTooManyButtons : SendError
  | interactiveDuplicateIds : SendError
  | interactiveDuplicateTitles : SendError
deriving DecidableEq, Repr

/-- The spec's `TooManyButtons` classification: the four per-sub-type count
limit errors of `validateButtonComponents`. -/
def SendError.isTooManyButtons : SendError → Bool
  | .maxQuickReplyButtons => true
  | .maxPhoneNumberButtons => true
  | .maxUrlButtons => true
  | .maxCopyCodeButtons => true
  | _ => false

/-- The spec's `IncompatibleButtonTypes` classification: the two button
combination errors of `validateButtonComponents`. -/
def SendError.isIncompatibleButtonTypes : SendError → Bool
  | .quickReplyCombined => true
  | .copyCodeCombined => true
  | _ => false

/-- `components.filter(comp => comp.type === 'button')`. -/
def buttonComponentsOf (components : List TemplateComponent) : List TemplateComponent :=
  components.filter (fun comp => comp.type == .button)

/-- `buttonComponents.filter(btn => btn.sub_type === st)`. -/
def subTypeButtons (buttonComponents : List TemplateComponent) (st : ButtonSubType) :
    List TemplateComponent :=
  buttonComponents.filter (fun btn => btn.sub_type == some st)

/-- `btn.parameters?.[0]?.text`: the first parameter's text, `none` when the
parameter list is missing or empty or the first parameter has no text. -/
def firstParameterText (btn : TemplateComponent) : Option String :=
  (btn.parameters.bind List.head?).bind TemplateParameter.text

/-- `validateButtonComponents` (src/services/template-service.ts), with
`new Set(xs).size !== xs.length` rendered as `xs.dedup.length ≠ xs.length`. -/
def validateButtonComponents (buttonComponents : List TemplateComponent) :
    Except SendError Unit :=
  let quickReplyButtons := subTypeButtons buttonComponents .quick_reply
  let phoneNumberButtons := subTypeButtons buttonComponents .phone_number
  let urlButtons := subTypeButtons buttonComponents .url
  let copyCodeButtons := subTypeButtons buttonComponents .copy_code
  if quickReplyButtons.length > 10 then .error .maxQuickReplyButtons
  else if phoneNumberButtons.length > 1 then .error .maxPhoneNumberButtons
  else if urlButtons.length > 1 then .error .maxUrlButtons
  else if copyCodeButtons.length > 1 then .error .maxCopyCodeButtons
  else if quickReplyButtons.length > 0 ∧
      (phoneNumberButtons.length > 0 ∨ urlButtons.length > 0 ∨ copyCodeButtons.length > 0) then
    .error .quickReplyCombined
  else if copyCodeButtons.length > 0 ∧
      (phoneNumberButtons.length > 0 ∨ urlButtons.length > 0) then
    .error .copyCodeCombined
  else
    let indices := buttonComponents.map TemplateComponent.index
    if indices.dedup.length ≠ indices.length then .error .duplicateButtonIndices
    else
      let buttonTexts := buttonComponents.map firstParameterText
      if buttonTexts.dedup.length ≠ buttonTexts.length then .error .duplicateButtonTexts
      else .ok ()

/-- The `for` loop of `validateTemplateComponents`: throw on the first
non-button component whose parameter list is missing or empty. -/
def checkComponentParameters : List TemplateComponent → Except SendError Unit
  | [] => .ok ()
  | component :: rest =>
    if component.type ≠ .button ∧
        (component.parameters = none ∨ component.parameters = some []) then
      .error (.componentMustHaveParameters component.type)
    else checkComponentParameters rest

/-- `validateTemplateComponents` (src/services/template-service.ts):
button components are validated first (when any exist), then every
non-button component must have a non-empty parameter list. -/
def validateTemplateComponents (components : List TemplateComponent) :
    Except SendError Unit :=
  let buttonComponents := buttonComponentsOf components
  match (if buttonComponents.length > 0 then validateButtonComponents buttonComponents
         else .ok ()) with
  | .error e => .error e
  | .ok _ => checkComponentParameters components

/-! ### Template component builders (TemplateService) -/

/-- `createBodyComponent`. -/
def createBodyComponent (textParameters : List String) : TemplateComponent :=
  { type := .body
    parameters := some (textParameters.map fun text =>
      { type := .text, text := some text, image := none, video := none, document := none })
    sub_type := none
    index := none }

/-- `createHeaderTextComponent`. -/
def createHeaderTextComponent (text : String) : TemplateComponent :=
  { type := .header
    parameters := some [{ type := .text, text := some text, image := none, video := none, document := none }]
    sub_type := none
    index := none }

/-- Common shape of the four button builders. -/
def mkButtonComponent (st : ButtonSubType) (index : Nat) (text : String) : TemplateComponent :=
  { type := .button
    parameters := some [{ type := .text, text := some text, image := none, video := none, document := none }]
    sub_type := some st
    index := some index }

/-- `createQuickReplyButtonComponent`. -/
def createQuickReplyButtonComponent (index : Nat) (text : String) : TemplateComponent :=
  mkButtonComponent .quick_reply index text

/-- `createPhoneNumberButtonComponent`. -/
def createPhoneNumberButtonComponent (index : Nat) (phoneNumber : String) : TemplateComponent :=
  mkButtonComponent .phone_number index phoneNumber

/-- `createUrlButtonComponent`. -/
def createUrlButtonComponent (index : Nat) (url : String) : TemplateComponent :=
  mkButtonComponent .url index url

/-- `createCopyCodeButtonComponent`. -/
def createCopyCodeButtonComponent (index : Nat) (code : String) : TemplateComponent :=
  mkButtonComponent .copy_code index code

/-! ### Wire body model and the message formatter (WhatsAppService) -/

/-- JSON-like value for the wire body; `undefined` is a field that was
assigned JavaScript `undefined`. -/
inductive JVal where
  | str : String → JVal
  | bool : Bool → JVal
  | arr : List JVal → JVal
  | obj : List (String × JVal) → JVal
  | undefined : JVal

/-- An optional string rendered as a field value. -/
def jOptStr : Option String → JVal
  | some s => .str s
  | none => .undefined

/-- The interactive content object as built by `sendInteractiveMessage`:
`{type:'button', body, action}` with `header`/`footer` keys added afterwards
when provided (so they appear last, in that order). -/
structure InteractiveContent where
  headerText : Option String
  bodyText : String
  footerText : Option String
  buttons : List InteractiveReplyButton

/-- Encoding of the interactive content in JavaScript insertion order. -/
def interactiveToJVal (i : InteractiveContent) : JVal :=
  .obj ([("type", .str "button"),
         ("body", .obj [("text", .str i.bodyText)]),
         ("action", .obj [("buttons", .arr (i.buttons.map fun button =>
            .obj [("type", .str "reply"),
                  ("reply", .obj [("id", .str button.id), ("title", .str button.title)])]))])]
    ++ (match i.headerText with
        | some t => [("header", .obj [("type", .str "text"), ("text", .str t)])]
        | none => [])
    ++ (match i.footerText with
        | some t => [("footer", .obj [("text", .str t)])]
        | none => []))

/-- The runtime message union consumed by `sendMessage`.  The TypeScript
interface declares the link/id exclusivity as a compile-time intersection
type; at runtime any combination of the optional fields can reach
`sendMessage`, so both are plain `Option`s here. -/
inductive WhatsAppMessage where
  | text : (from_ to_ body : String) → (preview_url : Option Bool) → WhatsAppMessage
  | image : (from_ to_ : String) → (link id caption : Option String) → WhatsAppMessage
  | document : (from_ to_ : String) → (link id : Option String) →
      (filename : String) → (caption : Option String) → WhatsAppMessage
  | video : (from_ to_ : String) → (link id : Option String) → (caption : String) → WhatsAppMessage
  | audio : (from_ to_ : String) → (link id : Option String) → WhatsAppMessage
  | interactive : (from_ to_ : String) → (content : InteractiveContent) → WhatsAppMessage

/-- `message.from`. -/
def WhatsAppMessage.from_ : WhatsAppMessage → String
  | .text f _ _ _ => f
  | .image f _ _ _ _ => f
  | .document f _ _ _ _ _ => f
  | .video f _ _ _ _ => f
  | .audio f _ _ _ => f
  | .interactive f _ _ => f

/-- `message.to` (named `to_` because `to` is reserved). -/
def WhatsAppMessage.to_ : WhatsAppMessage → String
  | .text _ t _ _ => t
  | .image _ t _ _ _ => t
  | .document _ t _ _ _ _ => t
  | .video _ t _ _ _ => t
  | .audio _ t _ _ => t
  | .interactive _ t _ => t

/-- `sendMessage` (src/services/whatsapp-service.ts) up to the HTTP call:
validates both phone numbers, then formats the wire body (note the
capitalized `To` key next to the lowercase `from`).  An `Except.error`
result means no request is issued. -/
def sendMessage (message : WhatsAppMessage) : Except SendError JVal :=
  if validatePhoneNumber message.from_ = false then
    .error (.invalidFromPhone message.from_)
  else if validatePhoneNumber message.to_ = false then
    .error (.invalidToPhone message.to_)
  else
    match message with
    | .text f t body preview_url =>
      .ok (.obj [("from", .str f), ("To", .str t), ("type", .str "text"),
        ("text", .obj [("body", .str body), ("preview_url", .bool (preview_url.getD false))])])
    | .image f t link id caption =>
      if truthyStr link then
        .ok (.obj [("from", .str f), ("To", .str t), ("type", .str "image"),
          ("image", .obj [("caption", jOptStr caption), ("link", .str (link.getD ""))])])
      else if truthyStr id then
        .ok (.obj [("from", .str f), ("To", .str t), ("type", .str "image"),
          ("image", .obj [("caption", jOptStr caption), ("id", .str (id.getD ""))])])
      else .error .imageMissingLinkOrId
    | .document f t link id filename caption =>
      if truthyStr link then
        .ok (.obj [("from", .str f), ("To", .str t), ("type", .str "document"),
          ("document", .obj [("filename", .str filename), ("caption", jOptStr caption),
            ("link", .str (link.getD ""))])])
      else if truthyStr id then
        .ok (.obj [("from", .str f), ("To", .str t), ("type", .str "document"),
          ("document", .obj [("filename", .str filename), ("caption", jOptStr caption),
            ("id", .str (id.getD ""))])])
      else .error .documentMissingLinkOrId
    | .video f t link id caption =>
      if truthyStr link then
        .ok (.obj [("from", .str f), ("To", .str t), ("type", .str "video"),
          ("video", .obj [("caption", .str caption), ("link", .str (link.getD ""))])])
      else if truthyStr id then
        .ok (.obj [("from", .str f), ("To", .str t), ("type", .str "video"),
          ("video", .obj [("caption", .str caption), ("id", .str (id.getD ""))])])
      else .error .videoMissingLinkOrId
    | .audio f t link id =>
      if truthyStr link then
        .ok (.obj [("from", .str f), ("To", .str t), ("type", .str "audio"),
          ("audio", .obj [("link", .str (link.getD ""))])])
      else if truthyStr id then
        .ok (.obj [("from", .str f), ("To", .str t), ("type", .str "audio"),
          ("audio", .obj [("id", .str (id.getD ""))])])
      else .error .audioMissingLinkOrId
    | .interactive f t content =>
      .ok (.obj [("from", .str f), ("To", .str t), ("type", .str "interactive"),
        ("interactive", interactiveToJVal content)])

/-- Argument record of `sendTextMessage`. -/
structure TextMessagePayload where
  to_ : String
  text : String
  previewUrl : Option Bool

/-- `sendTextMessage`: builds the `TextMessage` (preview defaulted with
`|| false`) and delegates to `sendMessage`. -/
def sendTextMessage (fromNumber : String) (payloadData : TextMessagePayload) :
    Except SendError JVal :=
  sendMessage (.text fromNumber payloadData.to_ payloadData.text
    (some (payloadData.previewUrl.getD false)))

/-- `validateInteractiveButtons` (src/types/index.ts). -/
def validateInteractiveButtons (buttons : List InteractiveReplyButton) :
    Except SendError Unit :=
  if buttons.length = 0 then .error .interactiveNoButtons
  else if buttons.length > 3 then .error .interactiveTooManyButtons
  else
    let ids := buttons.map InteractiveReplyButton.id
    if ids.dedup.length ≠ ids.length then .error .interactiveDuplicateIds
    else
      let titles := buttons.map InteractiveReplyButton.title
      if titles.dedup.length ≠ titles.length then .error .interactiveDuplicateTitles
      else .ok ()

/-- Argument record of `sendInteractiveMessage`. -/
structure InteractiveMessagePayload where
  to_ : String
  bodyText : String
  buttons : List InteractiveReplyButton
  headerText : Option String
  footerText : Option String

/-- `sendInteractiveMessage`: validates the buttons first, then builds the
interactive message and delegates to `sendMessage`. -/
def sendInteractiveMessage (fromNumber : String) (payloadData : InteractiveMessagePayload) :
    Except SendError JVal :=
  match validateInteractiveButtons payloadData.buttons with
  | .error e => .error e
  | .ok _ =>
    sendMessage (.interactive fromNumber payloadData.to_
      { headerText := payloadData.headerText
        bodyText := payloadData.bodyText
        footerText := payloadData.footerText
        buttons := payloadData.buttons })

/-- Argument record of `sendTemplateMessage`. -/
structure TemplateMessagePayload where
  to_ : String
  templateName : String
  langCode : String
  components : Option (List TemplateComponent)

/-- The outgoing template message body (template path posts a lowercase
`to`). -/
structure TemplateMessage where
  from_ : String
  to_ : String
  name : String
  lang_code : String
  components : Option (List TemplateComponent)
deriving DecidableEq

/-- `sendTemplateMessage` (src/services/template-service.ts) up to the HTTP
call: phone validation, language-code validation, then component
validation when components are provided. -/
def sendTemplateMessage (fromNumber : String) (payloadData : TemplateMessagePayload) :
    Except SendError TemplateMessage :=
  if validatePhoneNumber fromNumber = false then
    .error (.invalidFromPhone fromNumber)
  else if validatePhoneNumber payloadData.to_ = false then
    .error (.invalidToPhone payloadData.to_)
  else if validateLanguageCode payloadData.langCode = false then
    .error (.invalidLanguageCode payloadData.langCode)
  else
    match (match payloadData.components with
           | some components => validateTemplateComponents components
           | none => .ok ()) with
    | .error e => .error e
    | .ok _ =>
      .ok { from_ := fromNumber, to_ := payloadData.to_, name := payloadData.templateName,
            lang_code := payloadData.langCode, components := payloadData.components }

/-! ### Concrete inputs used by the claim theorems -/

/-- Template scenario: a body component built from two text parameters next
to a quick-reply button and a url button that share index 0. -/
def bodyWithClashingButtons : List TemplateComponent :=
  [createBodyComponent ["John Doe", "ORD-12345"],
   createQuickReplyButtonComponent 0 "QR",
   createUrlButtonComponent 0 "https:example.com"]

/-- A url button and a phone-number button that share index 0 (compatible
sub-types), next to a body component. -/
def bodyWithSameIndexUrlPhone : List TemplateComponent :=
  [createBodyComponent ["x"],
   createUrlButtonComponent 0 "U",
   createPhoneNumberButtonComponent 0 "P"]

/-- Ten quick-reply buttons with distinct indices and distinct texts. -/
def tenQuickReplies : List TemplateComponent :=
  [createQuickReplyButtonComponent 0 "A", createQuickReplyButtonComponent 1 "B",
   createQuickReplyButtonComponent 2 "C", createQuickReplyButtonComponent 3 "D",
   createQuickReplyButtonComponent 4 "E", createQuickReplyButtonComponent 5 "F",
   createQuickReplyButtonComponent 6 "G", createQuickReplyButtonComponent 7 "H",
   createQuickReplyButtonComponent 8 "I", createQuickReplyButtonComponent 9 "J"]

/-- Eleven quick-reply buttons with distinct indices and distinct texts. -/
def elevenQuickReplies : List TemplateComponent :=
  tenQuickReplies ++ [createQuickReplyButtonComponent 10 "K"]

/-- A body component with an empty parameter list next to eleven quick-reply
buttons: one empty-parameters violation and one button-count violation. -/
def emptyBodyAndElevenQuickReplies : List TemplateComponent :=
  createBodyComponent [] :: elevenQuickReplies

/-- A url button and a phone-number button that both omit the `index`
field. -/
def twoButtonsWithoutIndex : List TemplateComponent :=
  [{ type := .button
     parameters := some [{ type := .text, text := some "A", image := none, video := none, document := none }]
     sub_type := some .url
     index := none },
   { type := .button
     parameters := some [{ type := .text, text := some "B", image := none, video := none, document := none }]
     sub_type := some .phone_number
     index := none }]

/-- A url button and a phone-number button with distinct indices that both
lack any parameter (so neither has a first parameter text). -/
def twoButtonsWithoutText : List TemplateComponent :=
  [{ type := .button, parameters := none, sub_type := some .url, index := some 0 },
   { type := .button, parameters := none, sub_type := some .phone_number, index := some 1 }]

end SendZen

/-! ## Theorems -/

namespace SendZen

/-- Two booleans agreeing on `= true` are equal. -/
theorem bool_eq_of_iff {a b : Bool} (h : a = true ↔ b = true) : a = b := by
  cases a <;> cases b <;> simp_all

/-- The `new Set(xs).size === xs.length` test: the deduplicated length
equals the length exactly when the list has no duplicates. -/
theorem dedup_length_eq_iff {α : Type} [DecidableEq α] (l : List α) :
    l.dedup.length = l.length ↔ l.Nodup := by
  constructor
  · intro h
    exact List.dedup_eq_self.mp ((List.dedup_sublist l).eq_of_length h)
  · intro h
    rw [List.dedup_eq_self.mpr h]

/-- Two distinct members mapped to the same value defeat `Nodup` of the
mapped list. -/
theorem not_nodup_map_of_two {α β : Type} (f : α → β) {l : List α} {a b : α}
    (ha : a ∈ l) (hb : b ∈ l) (hne : a ≠ b) (hf : f a = f b) :
    ¬ (l.map f).Nodup := by
  intro h
  exact hne (List.inj_on_of_nodup_map h ha hb hf)

/-! ### Characterizing the regex matcher -/

theorem mem_remainders_eps {u cs : List Char} :
    u ∈ remainders .eps cs ↔ u = cs := by
  simp [remainders]

theorem mem_remainders_cls {p : Char → Bool} {u cs : List Char} :
    u ∈ remainders (.cls p) cs ↔ ∃ c, cs = c :: u ∧ p c = true := by
  cases cs with
  | nil => simp [remainders]
  | cons c v =>
    simp only [remainders]
    by_cases h : p c = true
    · rw [if_pos h]
      constructor
      · intro hu
        have hv : u = v := by simpa using hu
        exact ⟨c, by rw [hv], h⟩
      · rintro ⟨c', heq, hc'⟩
        injection heq with h1 h2
        subst h2
        simp
    · rw [if_neg h]
      constructor
      · intro hu; simp at hu
      · rintro ⟨c', heq, hc'⟩
        injection heq with h1 h2
        subst h1
        exact absurd hc' h

theorem mem_remainders_seq {a b : Reg} {u cs : List Char} :
    u ∈ remainders (.seq a b) cs ↔ ∃ v, v ∈ remainders a cs ∧ u ∈ remainders b v := by
  simp [remainders, List.mem_flatMap]

theorem mem_remainders_alt {a b : Reg} {u cs : List Char} :
    u ∈ remainders (.alt a b) cs ↔ u ∈ remainders a cs ∨ u ∈ remainders b cs := by
  simp [remainders]

/-- A complete match of `[0-9]{n}` consumes exactly `n` digits. -/
theorem nil_mem_remainders_digitsN (n : Nat) (w : List Char) :
    [] ∈ remainders (digitsN n) w ↔ w.all isDigitChar = true ∧ w.length = n := by
  induction n generalizing w with
  | zero =>
    cases w with
    | nil => simp [digitsN, mem_remainders_eps]
    | cons c v => simp [digitsN, mem_remainders_eps]
  | succ n ih =>
    cases w with
    | nil =>
      simp [digitsN, mem_remainders_seq, mem_remainders_cls]
    | cons c v =>
      simp only [digitsN, mem_remainders_seq, mem_remainders_cls]
      constructor
      · rintro ⟨v', ⟨c', hcons, hdig⟩, hmem⟩
        injection hcons with h1 h2
        subst h1
        subst h2
        obtain ⟨hall, hlen⟩ := (ih v).mp hmem
        constructor
        · simp only [List.all_cons, hdig, Bool.true_and]
          exact hall
        · simpa using hlen
      · rintro ⟨hall, hlen⟩
        simp only [List.all_cons, Bool.and_eq_true] at hall
        have hlv : v.length = n := by simpa using hlen
        exact ⟨v, ⟨c, rfl, hall.1⟩, (ih v).mpr ⟨hall.2, hlv⟩⟩

/-- A complete match of the phone pattern splits the string into a non-zero
digit, zero to three digits, a non-zero digit and nine digits. -/
theorem nil_mem_remainders_phoneRegex (cs : List Char) :
    [] ∈ remainders phoneRegex cs ↔
    ∃ c0 ds b es, cs = c0 :: ds ++ b :: es ∧
      isNonZeroDigit c0 = true ∧ ds.all isDigitChar = true ∧ ds.length ≤ 3 ∧
      isNonZeroDigit b = true ∧ es.all isDigitChar = true ∧ es.length = 9 := by
  constructor
  · intro h
    rw [phoneRegex, mem_remainders_seq] at h
    obtain ⟨v, hv, h⟩ := h
    rw [mem_remainders_cls] at hv
    obtain ⟨c0, rfl, hc0⟩ := hv
    rw [mem_remainders_seq] at h
    obtain ⟨v2, hv2, h⟩ := h
    rw [mem_remainders_seq] at h
    obtain ⟨v3, hv3, h⟩ := h
    rw [mem_remainders_cls] at hv3
    obtain ⟨b, rfl, hb⟩ := hv3
    rw [nil_mem_remainders_digitsN] at h
    obtain ⟨hes, hlen9⟩ := h
    simp only [digits0to3, mem_remainders_alt, mem_remainders_seq, mem_remainders_cls,
      mem_remainders_eps] at hv2
    rcases hv2 with h0 | ⟨v', ⟨d1, rfl, hd1⟩, h1⟩
    · refine ⟨c0, [], b, v3, ?_, hc0, by simp, by simp, hb, hes, hlen9⟩
      rw [h0]
      simp
    rcases h1 with h1 | ⟨v'', ⟨d2, rfl, hd2⟩, h2⟩
    · refine ⟨c0, [d1], b, v3, ?_, hc0, by simp [hd1], by simp, hb, hes, hlen9⟩
      rw [h1]
      simp
    rcases h2 with h2 | ⟨d3, rfl, hd3⟩
    · refine ⟨c0, [d1, d2], b, v3, ?_, hc0, by simp [hd1, hd2], by simp, hb, hes, hlen9⟩
      rw [h2]
      simp
    · refine ⟨c0, [d1, d2, d3], b, v3, rfl, hc0, by simp [hd1, hd2, hd3], by simp, hb, hes,
        hlen9⟩
  · rintro ⟨c0, ds, b, es, rfl, hc0, hds, hlen, hb, hes, hlen9⟩
    have htail : [] ∈ remainders (.seq (.cls isNonZeroDigit) (digitsN 9)) (b :: es) :=
      mem_remainders_seq.mpr ⟨es, mem_remainders_cls.mpr ⟨b, rfl, hb⟩,
        (nil_mem_remainders_digitsN 9 es).mpr ⟨hes, hlen9⟩⟩
    rw [phoneRegex, mem_remainders_seq]
    refine ⟨ds ++ b :: es, mem_remainders_cls.mpr ⟨c0, rfl, hc0⟩, ?_⟩
    rw [mem_remainders_seq]
    refine ⟨b :: es, ?_, htail⟩
    match ds, hds, hlen with
    | [], _, _ =>
      rw [digits0to3, mem_remainders_alt]
      exact Or.inl (mem_remainders_eps.mpr rfl)
    | [d1], hds, _ =>
      simp only [List.all_cons, List.all_nil, Bool.and_eq_true] at hds
      rw [digits0to3, mem_remainders_alt]
      exact Or.inr (mem_remainders_seq.mpr ⟨b :: es, mem_remainders_cls.mpr ⟨d1, rfl, hds.1⟩,
        mem_remainders_alt.mpr (Or.inl (mem_remainders_eps.mpr rfl))⟩)
    | [d1, d2], hds, _ =>
      simp only [List.all_cons, List.all_nil, Bool.and_eq_true] at hds
      rw [digits0to3, mem_remainders_alt]
      exact Or.inr (mem_remainders_seq.mpr ⟨d2 :: b :: es,
        mem_remainders_cls.mpr ⟨d1, rfl, hds.1⟩,
        mem_remainders_alt.mpr (Or.inr (mem_remainders_seq.mpr ⟨b :: es,
          mem_remainders_cls.mpr ⟨d2, rfl, hds.2.1⟩,
          mem_remainders_alt.mpr (Or.inl (mem_remainders_eps.mpr rfl))⟩))⟩)
    | [d1, d2, d3], hds, _ =>
      simp only [List.all_cons, List.all_nil, Bool.and_eq_true] at hds
      rw [digits0to3, mem_remainders_alt]
      exact Or.inr (mem_remainders_seq.mpr ⟨d2 :: d3 :: b :: es,
        mem_remainders_cls.mpr ⟨d1, rfl, hds.1⟩,
        mem_remainders_alt.mpr (Or.inr (mem_remainders_seq.mpr ⟨d3 :: b :: es,
          mem_remainders_cls.mpr ⟨d2, rfl, hds.2.1⟩,
          mem_remainders_alt.mpr (Or.inr
            (mem_remainders_cls.mpr ⟨d3, rfl, hds.2.2.1⟩))⟩))⟩)
    | d1 :: d2 :: d3 :: d4 :: ds, _, hlen =>
      exact absurd hlen (by simp)

/-- `[1-9]` is contained in `[0-9]`. -/
theorem isDigitChar_of_nonZero {c : Char} (h : isNonZeroDigit c = true) :
    isDigitChar c = true := by
  simp only [isNonZeroDigit, isDigitChar, Bool.and_eq_true, decide_eq_true_eq] at *
  omega

/-- The structural decomposition of a phone match is the same thing as the
digit-count characterization used by `phoneNumberSpec`. -/
theorem phone_decomposition_iff_counts (cs : List Char) :
    (∃ c0 ds b es, cs = c0 :: ds ++ b :: es ∧
      isNonZeroDigit c0 = true ∧ ds.all isDigitChar = true ∧ ds.length ≤ 3 ∧
      isNonZeroDigit b = true ∧ es.all isDigitChar = true ∧ es.length = 9) ↔
    (cs.all isDigitChar = true ∧ 11 ≤ cs.length ∧ cs.length ≤ 14 ∧
      headIsNonZero cs = true ∧ headIsNonZero (cs.drop (cs.length - 10)) = true) := by
  constructor
  · rintro ⟨c0, ds, b, es, rfl, hc0, hds, hlen, hb, hes, hlen9⟩
    have hlength : (c0 :: ds ++ b :: es).length = ds.length + 11 := by
      simp only [List.append_assoc, List.length_append, List.length_cons, hlen9]
      try omega
    refine ⟨?_, by omega, by omega, by simp [headIsNonZero, hc0], ?_⟩
    · simp [List.all_cons, List.all_append, isDigitChar_of_nonZero hc0,
        isDigitChar_of_nonZero hb, hds, hes]
    · have hdrop : (c0 :: ds ++ b :: es).drop ((c0 :: ds ++ b :: es).length - 10)
          = b :: es := by
        rw [hlength]
        have h1 : ds.length + 11 - 10 = (c0 :: ds).length := by simp
        rw [h1, List.drop_left]
      rw [hdrop]
      simp [headIsNonZero, hb]
  · rintro ⟨hall, h11, h14, hhead, hseg⟩
    cases cs with
    | nil => simp at h11
    | cons c0 rest =>
      have hrl : (10:Nat) ≤ rest.length ∧ rest.length ≤ 13 := by
        simp at h11 h14
        omega
      have hk3 : rest.length - 10 ≤ 3 := by omega
      have hdl : (rest.drop (rest.length - 10)).length = 10 := by
        rw [List.length_drop]
        omega
      cases hdk : rest.drop (rest.length - 10) with
      | nil => rw [hdk] at hdl; simp at hdl
      | cons b es =>
        have hallrest : ∀ x ∈ rest, isDigitChar x = true := by
          simp only [List.all_cons, Bool.and_eq_true] at hall
          exact List.all_eq_true.mp hall.2
        refine ⟨c0, rest.take (rest.length - 10), b, es, ?_, ?_, ?_, ?_, ?_, ?_, ?_⟩
        · rw [← hdk, List.cons_append, List.take_append_drop]
        · simpa [headIsNonZero] using hhead
        · exact List.all_eq_true.mpr fun x hx => hallrest x (List.mem_of_mem_take hx)
        · simp [List.length_take]
          omega
        · have hlencs : (c0 :: rest).length - 10 = (rest.length - 10) + 1 := by
            simp
            omega
          rw [hlencs, List.drop_succ_cons, hdk] at hseg
          simpa [headIsNonZero] using hseg
        · refine List.all_eq_true.mpr fun x hx => hallrest x ?_
          exact List.mem_of_mem_drop (by rw [hdk]; exact List.mem_cons_of_mem b hx)
        · rw [hdk] at hdl
          simp at hdl
          omega

/-- The runtime phone predicate agrees everywhere with the digit-count
characterization `phoneNumberSpec` (the `length <= 15` conjunct is
subsumed: a match never exceeds 14 characters). -/
theorem validatePhoneNumber_eq_spec (s : String) :
    validatePhoneNumber s = phoneNumberSpec s := by
  apply bool_eq_of_iff
  rw [validatePhoneNumber, phoneNumberSpec]
  simp only [regexTest, Bool.and_eq_true, decide_eq_true_eq, headIsNonZero]
  rw [nil_mem_remainders_phoneRegex]
  constructor
  · rintro ⟨hmem, _⟩
    have h := (phone_decomposition_iff_counts s.data).mp hmem
    simp only [headIsNonZero] at h
    tauto
  · intro h
    have hmem := (phone_decomposition_iff_counts s.data).mpr (by
      simp only [headIsNonZero]
      tauto)
    refine ⟨hmem, ?_⟩
    have h14 : s.data.length ≤ 14 := by tauto
    have : s.length = s.data.length := rfl
    omega

/-- The language-code predicate accepts exactly the five-character strings
lowercase-lowercase-underscore-uppercase-uppercase. -/
theorem validateLanguageCode_iff (s : String) :
    validateLanguageCode s = true ↔
    ∃ a b c d, s.data = [a, b, '_', c, d] ∧ isLowerAlpha a = true ∧ isLowerAlpha b = true ∧
      isUpperAlpha c = true ∧ isUpperAlpha d = true := by
  rw [validateLanguageCode, regexTest, decide_eq_true_eq, langCodeRegex]
  constructor
  · intro h
    rw [mem_remainders_seq] at h
    obtain ⟨v1, h1, h⟩ := h
    rw [mem_remainders_cls] at h1
    obtain ⟨a, hs, ha⟩ := h1
    rw [mem_remainders_seq] at h
    obtain ⟨v2, h2, h⟩ := h
    rw [mem_remainders_cls] at h2
    obtain ⟨b, hv1, hb⟩ := h2
    rw [mem_remainders_seq] at h
    obtain ⟨v3, h3, h⟩ := h
    rw [mem_remainders_cls] at h3
    obtain ⟨u, hv2, hu⟩ := h3
    rw [mem_remainders_seq] at h
    obtain ⟨v4, h4, h⟩ := h
    rw [mem_remainders_cls] at h4
    obtain ⟨c, hv3, hc⟩ := h4
    rw [mem_remainders_cls] at h
    obtain ⟨d, hv4, hd⟩ := h
    have hu9 : u = '_' := by simpa [isUnderscore] using hu
    subst hu9
    exact ⟨a, b, c, d, by rw [hs, hv1, hv2, hv3, hv4], ha, hb, hc, hd⟩
  · rintro ⟨a, b, c, d, hs, ha, hb, hc, hd⟩
    rw [hs]
    exact mem_remainders_seq.mpr ⟨[b, '_', c, d], mem_remainders_cls.mpr ⟨a, rfl, ha⟩,
      mem_remainders_seq.mpr ⟨['_', c, d], mem_remainders_cls.mpr ⟨b, rfl, hb⟩,
        mem_remainders_seq.mpr ⟨[c, d],
          mem_remainders_cls.mpr ⟨'_', rfl, by simp [isUnderscore]⟩,
          mem_remainders_seq.mpr ⟨[d], mem_remainders_cls.mpr ⟨c, rfl, hc⟩,
            mem_remainders_cls.mpr ⟨d, rfl, hd⟩⟩⟩⟩⟩

/-! ### Branch lemmas for the button validator -/

/-- Any per-sub-type count overflow makes `validateButtonComponents` fail
with one of the four limit errors (the spec's `TooManyButtons` class). -/
theorem validateButtonComponents_count_error (bs : List TemplateComponent)
    (h : (subTypeButtons bs .quick_reply).length > 10 ∨
      (subTypeButtons bs .phone_number).length > 1 ∨
      (subTypeButtons bs .url).length > 1 ∨
      (subTypeButtons bs .copy_code).length > 1) :
    ∃ e, validateButtonComponents bs = .error e ∧ e.isTooManyButtons = true := by
  simp only [validateButtonComponents]
  split_ifs with h1 h2 h3 h4 h5 h6 h7 h8 <;>
    first
      | exact ⟨_, rfl, rfl⟩
      | omega

/-- With all counts within their limits, an illegal sub-type combination
makes `validateButtonComponents` fail with one of the two combination
errors (the spec's `IncompatibleButtonTypes` class). -/
theorem validateButtonComponents_incompatible (bs : List TemplateComponent)
    (hq : (subTypeButtons bs .quick_reply).length ≤ 10)
    (hp : (subTypeButtons bs .phone_number).length ≤ 1)
    (hu : (subTypeButtons bs .url).length ≤ 1)
    (hc : (subTypeButtons bs .copy_code).length ≤ 1)
    (h : ((subTypeButtons bs .quick_reply).length ≥ 1 ∧
          ((subTypeButtons bs .phone_number).length ≥ 1 ∨
           (subTypeButtons bs .url).length ≥ 1 ∨
           (subTypeButtons bs .copy_code).length ≥ 1)) ∨
         ((subTypeButtons bs .copy_code).length ≥ 1 ∧
          ((subTypeButtons bs .phone_number).length ≥ 1 ∨
           (subTypeButtons bs .url).length ≥ 1))) :
    ∃ e, validateButtonComponents bs = .error e ∧ e.isIncompatibleButtonTypes = true := by
  simp only [validateButtonComponents]
  split_ifs with h1 h2 h3 h4 h5 h6 h7 h8 <;>
    first
      | exact ⟨_, rfl, rfl⟩
      | omega

/-- More than ten quick-reply buttons: the very first check fires. -/
theorem validateButtonComponents_qr_overflow (bs : List TemplateComponent)
    (h : (subTypeButtons bs .quick_reply).length > 10) :
    validateButtonComponents bs = .error .maxQuickReplyButtons := by
  simp only [validateButtonComponents]
  rw [if_pos h]

/-- With counts and combinations legal, duplicate raw `index` values fail
with the duplicate-index error. -/
theorem validateButtonComponents_dup_index (bs : List TemplateComponent)
    (hq : (subTypeButtons bs .quick_reply).length ≤ 10)
    (hp : (subTypeButtons bs .phone_number).length ≤ 1)
    (hu : (subTypeButtons bs .url).length ≤ 1)
    (hc : (subTypeButtons bs .copy_code).length ≤ 1)
    (h5 : ¬((subTypeButtons bs .quick_reply).length > 0 ∧
          ((subTypeButtons bs .phone_number).length > 0 ∨
           (subTypeButtons bs .url).length > 0 ∨
           (subTypeButtons bs .copy_code).length > 0)))
    (h6 : ¬((subTypeButtons bs .copy_code).length > 0 ∧
          ((subTypeButtons bs .phone_number).length > 0 ∨
           (subTypeButtons bs .url).length > 0)))
    (hnn : ¬ (bs.map TemplateComponent.index).Nodup) :
    validateButtonComponents bs = .error .duplicateButtonIndices := by
  simp only [validateButtonComponents]
  rw [if_neg (by omega), if_neg (by omega), if_neg (by omega), if_neg (by omega),
    if_neg h5, if_neg h6,
    if_pos (fun heq => hnn ((dedup_length_eq_iff _).mp heq))]

/-- With counts, combinations and indices legal, duplicate raw first
parameter texts fail with the duplicate-text error. -/
theorem validateButtonComponents_dup_text (bs : List TemplateComponent)
    (hq : (subTypeButtons bs .quick_reply).length ≤ 10)
    (hp : (subTypeButtons bs .phone_number).length ≤ 1)
    (hu : (subTypeButtons bs .url).length ≤ 1)
    (hc : (subTypeButtons bs .copy_code).length ≤ 1)
    (h5 : ¬((subTypeButtons bs .quick_reply).length > 0 ∧
          ((subTypeButtons bs .phone_number).length > 0 ∨
           (subTypeButtons bs .url).length > 0 ∨
           (subTypeButtons bs .copy_code).length > 0)))
    (h6 : ¬((subTypeButtons bs .copy_code).length > 0 ∧
          ((subTypeButtons bs .phone_number).length > 0 ∨
           (subTypeButtons bs .url).length > 0)))
    (hidx : (bs.map TemplateComponent.index).Nodup)
    (hnn : ¬ (bs.map firstParameterText).Nodup) :
    validateButtonComponents bs = .error .duplicateButtonTexts := by
  simp only [validateButtonComponents]
  rw [if_neg (by omega), if_neg (by omega), if_neg (by omega), if_neg (by omega),
    if_neg h5, if_neg h6,
    if_neg (fun hne => hne ((dedup_length_eq_iff _).mpr hidx)),
    if_pos (fun heq => hnn ((dedup_length_eq_iff _).mp heq))]

/-- A failing button validation is a failing template validation (buttons
are checked first). -/
theorem validateTemplateComponents_of_button_error {components : List TemplateComponent}
    {e : SendError} (hbs : (buttonComponentsOf components).length > 0)
    (h : validateButtonComponents (buttonComponentsOf components) = .error e) :
    validateTemplateComponents components = .error e := by
  simp only [validateTemplateComponents]
  rw [if_pos hbs, h]

/-! ### Claim theorems -/

/-- C1, counterexample: a quick-reply button at index 0 next to a url
button at index 0 (with an otherwise valid body component) does not fail
with the duplicate-index error — the incompatible-combination check fires
first, so the error is `quickReplyCombined`. -/
theorem claim_C1_counterexample :
    validateTemplateComponents bodyWithClashingButtons = .error .quickReplyCombined
    ∧ validateTemplateComponents bodyWithClashingButtons ≠ .error .duplicateButtonIndices := by
  have h0 : validateTemplateComponents bodyWithClashingButtons
      = .error .quickReplyCombined := by decide
  exact ⟨h0, fun h => absurd (Except.error.inj (h0.symm.trans h)) (by decide)⟩

/-- C1, amended: two buttons of compatible sub-types (one url and one
phone-number) that share index 0 fail with the duplicate-index error even
though the sub-types differ, in any component list whose buttons pass the
count and combination checks. -/
theorem claim_C1_duplicate_index :
    ∀ components : List TemplateComponent,
      (subTypeButtons (buttonComponentsOf components) .quick_reply).length = 0 →
      (subTypeButtons (buttonComponentsOf components) .copy_code).length = 0 →
      (subTypeButtons (buttonComponentsOf components) .phone_number).length ≤ 1 →
      (subTypeButtons (buttonComponentsOf components) .url).length ≤ 1 →
      (∃ b1 ∈ buttonComponentsOf components, b1.sub_type = some .url ∧ b1.index = some 0) →
      (∃ b2 ∈ buttonComponentsOf components,
        b2.sub_type = some .phone_number ∧ b2.index = some 0) →
      validateTemplateComponents components = .error .duplicateButtonIndices := by
  rintro components hqr hcc hpn hurl ⟨b1, hb1m, hb1s, hb1i⟩ ⟨b2, hb2m, hb2s, hb2i⟩
  have hbs : (buttonComponentsOf components).length > 0 :=
    List.length_pos.mpr (List.ne_nil_of_mem hb1m)
  have hneq : b1 ≠ b2 := by
    intro he
    rw [he, hb2s] at hb1s
    exact absurd hb1s (by decide)
  have hnn : ¬ ((buttonComponentsOf components).map TemplateComponent.index).Nodup :=
    not_nodup_map_of_two TemplateComponent.index hb1m hb2m hneq (by rw [hb1i, hb2i])
  exact validateTemplateComponents_of_button_error hbs
    (validateButtonComponents_dup_index _ (by omega) hpn hurl (by omega) (by omega)
      (by omega) hnn)

/-- C1, witness: the url/phone-number pair at index 0 from the amended
claim, next to a body component. -/
theorem claim_C1_witness :
    validateTemplateComponents bodyWithSameIndexUrlPhone = .error .duplicateButtonIndices :=
  claim_C1_duplicate_index _ (by decide) (by decide) (by decide) (by decide) (by decide)
    (by decide)

/-- C2, counterexample: an image message with both `link` and `id` set does
not fail — the link wins and the formatted payload carries the link. -/
theorem claim_C2_counterexample :
    sendMessage (.image "14155550100" "14155552671" (some "https:img") (some "MEDIA1") none)
      = .ok (.obj [("from", .str "14155550100"), ("To", .str "14155552671"),
          ("type", .str "image"),
          ("image", .obj [("caption", .undefined), ("link", .str "https:img")])])
    ∧ sendMessage (.image "14155550100" "14155552671" (some "https:img") (some "MEDIA1") none)
        ≠ .error .imageMissingLinkOrId := by
  have h0 : sendMessage
        (.image "14155550100" "14155552671" (some "https:img") (some "MEDIA1") none)
      = Except.ok (JVal.obj [("from", .str "14155550100"), ("To", .str "14155552671"),
          ("type", .str "image"),
          ("image", .obj [("caption", .undefined), ("link", .str "https:img")])]) := rfl
  exact ⟨h0, fun h => Except.noConfusion (h0.symm.trans h)⟩

/-- C2, amended: for every media type, a truthy (non-empty) `link` is
emitted — taking precedence over any `id` — a truthy `id` is emitted when
the link is not truthy, and when neither is truthy formatting fails with
that type's missing-locator error before any request is issued. -/
theorem claim_C2_media_locator :
    ∀ f t : String, validatePhoneNumber f = true → validatePhoneNumber t = true →
    ((∀ (s : String) (i caption : Option String), s ≠ "" →
        sendMessage (.image f t (some s) i caption)
          = .ok (.obj [("from", .str f), ("To", .str t), ("type", .str "image"),
              ("image", .obj [("caption", jOptStr caption), ("link", .str s)])]))
     ∧ (∀ (l : Option String) (s : String) (caption : Option String),
          truthyStr l = false → s ≠ "" →
          sendMessage (.image f t l (some s) caption)
            = .ok (.obj [("from", .str f), ("To", .str t), ("type", .str "image"),
                ("image", .obj [("caption", jOptStr caption), ("id", .str s)])]))
     ∧ (∀ l i caption : Option String, truthyStr l = false → truthyStr i = false →
          sendMessage (.image f t l i caption) = .error .imageMissingLinkOrId))
    ∧
    ((∀ (s : String) (i : Option String) (fn : String) (caption : Option String), s ≠ "" →
        sendMessage (.document f t (some s) i fn caption)
          = .ok (.obj [("from", .str f), ("To", .str t), ("type", .str "document"),
              ("document", .obj [("filename", .str fn), ("caption", jOptStr caption),
                ("link", .str s)])]))
     ∧ (∀ (l : Option String) (s fn : String) (caption : Option String),
          truthyStr l = false → s ≠ "" →
          sendMessage (.document f t l (some s) fn caption)
            = .ok (.obj [("from", .str f), ("To", .str t), ("type", .str "document"),
                ("document", .obj [("filename", .str fn), ("caption", jOptStr caption),
                  ("id", .str s)])]))
     ∧ (∀ (l i : Option String) (fn : String) (caption : Option String),
          truthyStr l = false → truthyStr i = false →
          sendMessage (.document f t l i fn caption) = .error .documentMissingLinkOrId))
    ∧
    ((∀ (s : String) (i : Option String) (caption : String), s ≠ "" →
        sendMessage (.video f t (some s) i caption)
          = .ok (.obj [("from", .str f), ("To", .str t), ("type", .str "video"),
              ("video", .obj [("caption", .str caption), ("link", .str s)])]))
     ∧ (∀ (l : Option String) (s caption : String), truthyStr l = false → s ≠ "" →
          sendMessage (.video f t l (some s) caption)
            = .ok (.obj [("from", .str f), ("To", .str t), ("type", .str "video"),
                ("video", .obj [("caption", .str caption), ("id", .str s)])]))
     ∧ (∀ (l i : Option String) (caption : String),
          truthyStr l = false → truthyStr i = false →
          sendMessage (.video f t l i caption) = .error .videoMissingLinkOrId))
    ∧
    ((∀ (s : String) (i : Option String), s ≠ "" →
        sendMessage (.audio f t (some s) i)
          = .ok (.obj [("from", .str f), ("To", .str t), ("type", .str "audio"),
              ("audio", .obj [("link", .str s)])]))
     ∧ (∀ (l : Option String) (s : String), truthyStr l = false → s ≠ "" →
          sendMessage (.audio f t l (some s))
            = .ok (.obj [("from", .str f), ("To", .str t), ("type", .str "audio"),
                ("audio", .obj [("id", .str s)])]))
     ∧ (∀ l i : Option String, truthyStr l = false → truthyStr i = false →
          sendMessage (.audio f t l i) = .error .audioMissingLinkOrId)) := by
  intro f t hf ht
  refine ⟨⟨?_, ?_, ?_⟩, ⟨?_, ?_, ?_⟩, ⟨?_, ?_, ?_⟩, ⟨?_, ?_, ?_⟩⟩
  · intro s i caption hs
    simp [sendMessage, WhatsAppMessage.from_, WhatsAppMessage.to_, hf, ht, truthyStr, hs]
  · intro l s caption hl hs
    have hs9 : truthyStr (some s) = true := by simp [truthyStr, hs]
    simp [sendMessage, WhatsAppMessage.from_, WhatsAppMessage.to_, hf, ht, hl, hs9]
  · intro l i caption hl hi
    simp [sendMessage, WhatsAppMessage.from_, WhatsAppMessage.to_, hf, ht, hl, hi]
  · intro s i fn caption hs
    simp [sendMessage, WhatsAppMessage.from_, WhatsAppMessage.to_, hf, ht, truthyStr, hs]
  · intro l s fn caption hl hs
    have hs9 : truthyStr (some s) = true := by simp [truthyStr, hs]
    simp [sendMessage, WhatsAppMessage.from_, WhatsAppMessage.to_, hf, ht, hl, hs9]
  · intro l i fn caption hl hi
    simp [sendMessage, WhatsAppMessage.from_, WhatsAppMessage.to_, hf, ht, hl, hi]
  · intro s i caption hs
    simp [sendMessage, WhatsAppMessage.from_, WhatsAppMessage.to_, hf, ht, truthyStr, hs]
  · intro l s caption hl hs
    have hs9 : truthyStr (some s) = true := by simp [truthyStr, hs]
    simp [sendMessage, WhatsAppMessage.from_, WhatsAppMessage.to_, hf, ht, hl, hs9]
  · intro l i caption hl hi
    simp [sendMessage, WhatsAppMessage.from_, WhatsAppMessage.to_, hf, ht, hl, hi]
  · intro s i hs
    simp [sendMessage, WhatsAppMessage.from_, WhatsAppMessage.to_, hf, ht, truthyStr, hs]
  · intro l s hl hs
    have hs9 : truthyStr (some s) = true := by simp [truthyStr, hs]
    simp [sendMessage, WhatsAppMessage.from_, WhatsAppMessage.to_, hf, ht, hl, hs9]
  · intro l i hl hi
    simp [sendMessage, WhatsAppMessage.from_, WhatsAppMessage.to_, hf, ht, hl, hi]

/-- C2, witness: neither locator on an image fails with the image
missing-locator error; an id-only audio emits the id. -/
theorem claim_C2_witness :
    sendMessage (.image "14155550100" "14155552671" none none none)
      = .error .imageMissingLinkOrId
    ∧ sendMessage (.audio "14155550100" "14155552671" none (some "M1"))
      = .ok (.obj [("from", .str "14155550100"), ("To", .str "14155552671"),
          ("type", .str "audio"), ("audio", .obj [("id", .str "M1")])]) := by
  have h := claim_C2_media_locator "14155550100" "14155552671" (by decide) (by decide)
  exact ⟨h.1.2.2 none none none (by decide) (by decide),
    h.2.2.2.2.1 none "M1" (by decide) (by decide)⟩

/-- C3, counterexample: `"5"` is a string of one non-zero digit, which the
claim says the predicate accepts, but the code rejects it (the pattern
requires at least 11 digits). -/
theorem claim_C3_counterexample : validatePhoneNumber "5" = false := by decide

/-- C3, amended: the phone predicate accepts exactly the all-digit strings
of length 11 to 14 whose first digit is non-zero and whose tenth-from-last
digit is non-zero; a failing sender (resp. recipient) aborts `sendMessage`
with an error naming the offending value before any request is issued. -/
theorem claim_C3_phone_predicate :
    (∀ s, validatePhoneNumber s = phoneNumberSpec s)
    ∧ (∀ m : WhatsAppMessage, validatePhoneNumber m.from_ = false →
        sendMessage m = .error (.invalidFromPhone m.from_))
    ∧ (∀ m : WhatsAppMessage, validatePhoneNumber m.from_ = true →
        validatePhoneNumber m.to_ = false →
        sendMessage m = .error (.invalidToPhone m.to_)) := by
  refine ⟨validatePhoneNumber_eq_spec, ?_, ?_⟩
  · intro m h
    simp [sendMessage, h]
  · intro m h1 h2
    simp [sendMessage, h1, h2]

/-- C3, witness: a one-digit sender and a one-digit recipient are rejected
with errors naming them. -/
theorem claim_C3_witness :
    sendMessage (.text "0" "14155552671" "hi" none) = .error (.invalidFromPhone "0")
    ∧ sendMessage (.text "14155550100" "5" "hi" none) = .error (.invalidToPhone "5") :=
  ⟨claim_C3_phone_predicate.2.1 _ (by decide),
   claim_C3_phone_predicate.2.2 _ (by decide) (by decide)⟩

/-- C4, counterexample: a list with both an empty-parameters body component
and eleven quick-reply buttons reports the button-count error, not the
empty-parameters error — button validation runs first. -/
theorem claim_C4_counterexample :
    validateTemplateComponents emptyBodyAndElevenQuickReplies = .error .maxQuickReplyButtons
    ∧ validateTemplateComponents emptyBodyAndElevenQuickReplies
        ≠ .error (.componentMustHaveParameters .body) := by
  have h0 : validateTemplateComponents emptyBodyAndElevenQuickReplies
      = .error .maxQuickReplyButtons := by decide
  exact ⟨h0, fun h => absurd (Except.error.inj (h0.symm.trans h)) (by decide)⟩

/-- C4, amended: when a component list contains both a non-button component
with a missing or empty parameter list and more than ten quick-reply
buttons, validation reports the button-count error: button checks precede
the empty-parameters check. -/
theorem claim_C4_button_checks_first :
    ∀ components : List TemplateComponent,
      (∃ comp ∈ components, comp.type ≠ .button ∧
        (comp.parameters = none ∨ comp.parameters = some [])) →
      (subTypeButtons (buttonComponentsOf components) .quick_reply).length > 10 →
      validateTemplateComponents components = .error .maxQuickReplyButtons := by
  intro components hempty hq
  have hle : (subTypeButtons (buttonComponentsOf components) .quick_reply).length
      ≤ (buttonComponentsOf components).length := List.length_filter_le _ _
  exact validateTemplateComponents_of_button_error (by omega)
    (validateButtonComponents_qr_overflow _ hq)

/-- C4, witness: the empty body with eleven quick replies. -/
theorem claim_C4_witness :
    validateTemplateComponents emptyBodyAndElevenQuickReplies
      = .error .maxQuickReplyButtons :=
  claim_C4_button_checks_first _ (by decide) (by decide)

/-- C5: any per-sub-type count overflow (more than 10 quick-reply, or more
than 1 phone-number, url or copy-code buttons) fails with a `TooManyButtons`
class error, and ten quick-reply buttons with no other violation succeed. -/
theorem claim_C5_button_limits :
    (∀ components : List TemplateComponent,
      ((subTypeButtons (buttonComponentsOf components) .quick_reply).length > 10 ∨
       (subTypeButtons (buttonComponentsOf components) .phone_number).length > 1 ∨
       (subTypeButtons (buttonComponentsOf components) .url).length > 1 ∨
       (subTypeButtons (buttonComponentsOf components) .copy_code).length > 1) →
      ∃ e, validateTemplateComponents components = .error e ∧ e.isTooManyButtons = true)
    ∧ validateTemplateComponents tenQuickReplies = .ok () := by
  constructor
  · intro components h
    have l1 : (subTypeButtons (buttonComponentsOf components) .quick_reply).length
        ≤ (buttonComponentsOf components).length := List.length_filter_le _ _
    have l2 : (subTypeButtons (buttonComponentsOf components) .phone_number).length
        ≤ (buttonComponentsOf components).length := List.length_filter_le _ _
    have l3 : (subTypeButtons (buttonComponentsOf components) .url).length
        ≤ (buttonComponentsOf components).length := List.length_filter_le _ _
    have l4 : (subTypeButtons (buttonComponentsOf components) .copy_code).length
        ≤ (buttonComponentsOf components).length := List.length_filter_le _ _
    obtain ⟨e, he, htm⟩ := validateButtonComponents_count_error _ h
    exact ⟨e, validateTemplateComponents_of_button_error (by omega) he, htm⟩
  · decide

/-- C5, witness: eleven quick-reply buttons overflow the limit. -/
theorem claim_C5_witness :
    ∃ e, validateTemplateComponents elevenQuickReplies = .error e
      ∧ e.isTooManyButtons = true :=
  claim_C5_button_limits.1 elevenQuickReplies (by decide)

/-- C6: within the per-sub-type count limits, a quick-reply button next to
any phone-number/url/copy-code button, or a copy-code button next to a
phone-number/url button, fails with an `IncompatibleButtonTypes` class
error; one url plus one phone-number button (distinct indices and texts,
no quick-reply or copy-code) succeeds. -/
theorem claim_C6_button_exclusivity :
    (∀ components : List TemplateComponent,
      (subTypeButtons (buttonComponentsOf components) .quick_reply).length ≤ 10 →
      (subTypeButtons (buttonComponentsOf components) .phone_number).length ≤ 1 →
      (subTypeButtons (buttonComponentsOf components) .url).length ≤ 1 →
      (subTypeButtons (buttonComponentsOf components) .copy_code).length ≤ 1 →
      (((subTypeButtons (buttonComponentsOf components) .quick_reply).length ≥ 1 ∧
        ((subTypeButtons (buttonComponentsOf components) .phone_number).length ≥ 1 ∨
         (subTypeButtons (buttonComponentsOf components) .url).length ≥ 1 ∨
         (subTypeButtons (buttonComponentsOf components) .copy_code).length ≥ 1)) ∨
       ((subTypeButtons (buttonComponentsOf components) .copy_code).length ≥ 1 ∧
        ((subTypeButtons (buttonComponentsOf components) .phone_number).length ≥ 1 ∨
         (subTypeButtons (buttonComponentsOf components) .url).length ≥ 1))) →
      ∃ e, validateTemplateComponents components = .error e
        ∧ e.isIncompatibleButtonTypes = true)
    ∧ validateTemplateComponents
        [createUrlButtonComponent 0 "U", createPhoneNumberButtonComponent 1 "P"]
        = .ok () := by
  constructor
  · intro components hq hp hu hc h
    have l1 : (subTypeButtons (buttonComponentsOf components) .quick_reply).length
        ≤ (buttonComponentsOf components).length := List.length_filter_le _ _
    have l4 : (subTypeButtons (buttonComponentsOf components) .copy_code).length
        ≤ (buttonComponentsOf components).length := List.length_filter_le _ _
    obtain ⟨e, he, hic⟩ := validateButtonComponents_incompatible _ hq hp hu hc h
    exact ⟨e, validateTemplateComponents_of_button_error (by omega) he, hic⟩
  · decide

/-- C6, witness: a quick-reply next to a url button, and a copy-code next
to a phone-number button, both fail with the incompatibility class. -/
theorem claim_C6_witness :
    (∃ e, validateTemplateComponents
        [createQuickReplyButtonComponent 0 "A", createUrlButtonComponent 1 "B"]
        = .error e ∧ e.isIncompatibleButtonTypes = true)
    ∧ (∃ e, validateTemplateComponents
        [createCopyCodeButtonComponent 0 "C", createPhoneNumberButtonComponent 1 "P"]
        = .error e ∧ e.isIncompatibleButtonTypes = true) :=
  ⟨claim_C6_button_exclusivity.1 _ (by decide) (by decide) (by decide) (by decide)
      (by decide),
   claim_C6_button_exclusivity.1 _ (by decide) (by decide) (by decide) (by decide)
      (by decide)⟩

/-- C7: the language-code validator accepts exactly the strings of two
lowercase letters, an underscore and two uppercase letters; a rejected
code aborts `sendTemplateMessage` with an error naming the string before
any request is issued. -/
theorem claim_C7_language_code :
    (∀ s, validateLanguageCode s = true ↔
      ∃ a b c d, s.data = [a, b, '_', c, d] ∧ isLowerAlpha a = true ∧ isLowerAlpha b = true ∧
        isUpperAlpha c = true ∧ isUpperAlpha d = true)
    ∧ validateLanguageCode "en_US" = true ∧ validateLanguageCode "es_ES" = true
    ∧ validateLanguageCode "english" = false ∧ validateLanguageCode "en-US" = false
    ∧ validateLanguageCode "EN_us" = false
    ∧ (∀ (fromNumber : String) (p : TemplateMessagePayload),
        validatePhoneNumber fromNumber = true → validatePhoneNumber p.to_ = true →
        validateLanguageCode p.langCode = false →
        sendTemplateMessage fromNumber p = .error (.invalidLanguageCode p.langCode)) := by
  refine ⟨validateLanguageCode_iff, by decide, by decide, by decide, by decide, by decide, ?_⟩
  intro fromNumber p h1 h2 h3
  simp [sendTemplateMessage, h1, h2, h3]

/-- C7, witness: `"english"` is rejected and the send aborts naming it. -/
theorem claim_C7_witness :
    sendTemplateMessage "14155550100" ⟨"14155552671", "order_update", "english", none⟩
      = .error (.invalidLanguageCode "english") :=
  claim_C7_language_code.2.2.2.2.2.2 _ _ (by decide) (by decide) (by decide)

/-- C8: the exact wire body of the concrete text message, with the
capitalized `To` next to the lowercase `from`, and the preview flag
defaulting to `false` when omitted. -/
theorem claim_C8_text_wire_body :
    sendTextMessage "14155550100" ⟨"14155552671", "Hello", some true⟩
      = .ok (.obj [("from", .str "14155550100"), ("To", .str "14155552671"),
          ("type", .str "text"),
          ("text", .obj [("body", .str "Hello"), ("preview_url", .bool true)])])
    ∧ (∀ (fromNumber to9 body : String),
        validatePhoneNumber fromNumber = true → validatePhoneNumber to9 = true →
        sendTextMessage fromNumber ⟨to9, body, none⟩
          = .ok (.obj [("from", .str fromNumber), ("To", .str to9), ("type", .str "text"),
              ("text", .obj [("body", .str body), ("preview_url", .bool false)])])) := by
  refine ⟨rfl, ?_⟩
  intro fromNumber to9 body h1 h2
  simp [sendTextMessage, sendMessage, WhatsAppMessage.from_, WhatsAppMessage.to_, h1, h2]

/-- C8, witness: an omitted preview flag comes out as `false`. -/
theorem claim_C8_witness :
    sendTextMessage "14155550100" ⟨"14155552671", "Hi", none⟩
      = .ok (.obj [("from", .str "14155550100"), ("To", .str "14155552671"),
          ("type", .str "text"),
          ("text", .obj [("body", .str "Hi"), ("preview_url", .bool false)])]) :=
  claim_C8_text_wire_body.2 _ _ _ (by decide) (by decide)

/-- C9: interactive-button validation succeeds exactly when the list has
1 to 3 entries with pairwise-distinct ids and pairwise-distinct titles;
each violation aborts `sendInteractiveMessage` with the corresponding
error before any request is issued. -/
theorem claim_C9_interactive_buttons :
    (∀ buttons : List InteractiveReplyButton,
      validateInteractiveButtons buttons = .ok () ↔
        (1 ≤ buttons.length ∧ buttons.length ≤ 3 ∧
         (buttons.map InteractiveReplyButton.id).Nodup ∧
         (buttons.map InteractiveReplyButton.title).Nodup))
    ∧ (∀ (fromNumber : String) (p : InteractiveMessagePayload), p.buttons.length = 0 →
        sendInteractiveMessage fromNumber p = .error .interactiveNoButtons)
    ∧ (∀ (fromNumber : String) (p : InteractiveMessagePayload), p.buttons.length > 3 →
        sendInteractiveMessage fromNumber p = .error .interactiveTooManyButtons)
    ∧ (∀ (fromNumber : String) (p : InteractiveMessagePayload),
        1 ≤ p.buttons.length → p.buttons.length ≤ 3 →
        ¬ (p.buttons.map InteractiveReplyButton.id).Nodup →
        sendInteractiveMessage fromNumber p = .error .interactiveDuplicateIds)
    ∧ (∀ (fromNumber : String) (p : InteractiveMessagePayload),
        1 ≤ p.buttons.length → p.buttons.length ≤ 3 →
        (p.buttons.map InteractiveReplyButton.id).Nodup →
        ¬ (p.buttons.map InteractiveReplyButton.title).Nodup →
        sendInteractiveMessage fromNumber p = .error .interactiveDuplicateTitles) := by
  refine ⟨?_, ?_, ?_, ?_, ?_⟩
  · intro buttons
    simp only [validateInteractiveButtons]
    split_ifs with h1 h2 h3 h4
    · exact iff_of_false (by simp) (by omega)
    · exact iff_of_false (by simp) (by omega)
    · exact iff_of_false (by simp)
        (fun ⟨_, _, hnd, _⟩ => h3 ((dedup_length_eq_iff _).mpr hnd))
    · exact iff_of_false (by simp)
        (fun ⟨_, _, _, hnd⟩ => h4 ((dedup_length_eq_iff _).mpr hnd))
    · refine iff_of_true rfl ⟨by omega, by omega, ?_, ?_⟩
      · exact (dedup_length_eq_iff _).mp (of_not_not h3)
      · exact (dedup_length_eq_iff _).mp (of_not_not h4)
  · intro fromNumber p h
    have hv : validateInteractiveButtons p.buttons = .error .interactiveNoButtons := by
      simp only [validateInteractiveButtons]
      rw [if_pos h]
    simp [sendInteractiveMessage, hv]
  · intro fromNumber p h
    have hv : validateInteractiveButtons p.buttons = .error .interactiveTooManyButtons := by
      simp only [validateInteractiveButtons]
      rw [if_neg (by omega), if_pos h]
    simp [sendInteractiveMessage, hv]
  · intro fromNumber p hlo hhi hnd
    have hv : validateInteractiveButtons p.buttons = .error .interactiveDuplicateIds := by
      simp only [validateInteractiveButtons]
      rw [if_neg (by omega), if_neg (by omega),
        if_pos (fun heq => hnd ((dedup_length_eq_iff _).mp heq))]
    simp [sendInteractiveMessage, hv]
  · intro fromNumber p hlo hhi hid hnd
    have hv : validateInteractiveButtons p.buttons = .error .interactiveDuplicateTitles := by
      simp only [validateInteractiveButtons]
      rw [if_neg (by omega), if_neg (by omega),
        if_neg (fun hne => hne ((dedup_length_eq_iff _).mpr hid)),
        if_pos (fun heq => hnd ((dedup_length_eq_iff _).mp heq))]
    simp [sendInteractiveMessage, hv]

/-- C9, witness: each of the four violations on concrete button lists. -/
theorem claim_C9_witness :
    sendInteractiveMessage "x" ⟨"14155552671", "body", [], none, none⟩
      = .error .interactiveNoButtons
    ∧ sendInteractiveMessage "x" ⟨"14155552671", "body",
        [⟨"1", "A"⟩, ⟨"2", "B"⟩, ⟨"3", "C"⟩, ⟨"4", "D"⟩], none, none⟩
      = .error .interactiveTooManyButtons
    ∧ sendInteractiveMessage "x" ⟨"14155552671", "body",
        [⟨"1", "A"⟩, ⟨"1", "B"⟩], none, none⟩ = .error .interactiveDuplicateIds
    ∧ sendInteractiveMessage "x" ⟨"14155552671", "body",
        [⟨"1", "A"⟩, ⟨"2", "A"⟩], none, none⟩ = .error .interactiveDuplicateTitles :=
  ⟨claim_C9_interactive_buttons.2.1 _ _ (by decide),
   claim_C9_interactive_buttons.2.2.1 _ _ (by decide),
   claim_C9_interactive_buttons.2.2.2.1 _ _ (by decide) (by decide) (by decide),
   claim_C9_interactive_buttons.2.2.2.2 _ _ (by decide) (by decide) (by decide) (by decide)⟩

/-- C10: the index and text uniqueness checks compare the raw optional
values: in a component list whose buttons pass the count and combination
checks, two or more buttons all omitting `index` collide on the raw `none`
and fail with the duplicate-index error, and (with distinct indices) two
distinct buttons both lacking a first parameter text collide on the raw
`none` and fail with the duplicate-text error. -/
theorem claim_C10_raw_uniqueness :
    (∀ components : List TemplateComponent,
      (subTypeButtons (buttonComponentsOf components) .quick_reply).length ≤ 10 →
      (subTypeButtons (buttonComponentsOf components) .phone_number).length ≤ 1 →
      (subTypeButtons (buttonComponentsOf components) .url).length ≤ 1 →
      (subTypeButtons (buttonComponentsOf components) .copy_code).length ≤ 1 →
      ¬((subTypeButtons (buttonComponentsOf components) .quick_reply).length > 0 ∧
        ((subTypeButtons (buttonComponentsOf components) .phone_number).length > 0 ∨
         (subTypeButtons (buttonComponentsOf components) .url).length > 0 ∨
         (subTypeButtons (buttonComponentsOf components) .copy_code).length > 0)) →
      ¬((subTypeButtons (buttonComponentsOf components) .copy_code).length > 0 ∧
        ((subTypeButtons (buttonComponentsOf components) .phone_number).length > 0 ∨
         (subTypeButtons (buttonComponentsOf components) .url).length > 0)) →
      2 ≤ (buttonComponentsOf components).length →
      (∀ b ∈ buttonComponentsOf components, b.index = none) →
      validateTemplateComponents components = .error .duplicateButtonIndices)
    ∧ (∀ components : List TemplateComponent,
      (subTypeButtons (buttonComponentsOf components) .quick_reply).length ≤ 10 →
      (subTypeButtons (buttonComponentsOf components) .phone_number).length ≤ 1 →
      (subTypeButtons (buttonComponentsOf components) .url).length ≤ 1 →
      (subTypeButtons (buttonComponentsOf components) .copy_code).length ≤ 1 →
      ¬((subTypeButtons (buttonComponentsOf components) .quick_reply).length > 0 ∧
        ((subTypeButtons (buttonComponentsOf components) .phone_number).length > 0 ∨
         (subTypeButtons (buttonComponentsOf components) .url).length > 0 ∨
         (subTypeButtons (buttonComponentsOf components) .copy_code).length > 0)) →
      ¬((subTypeButtons (buttonComponentsOf components) .copy_code).length > 0 ∧
        ((subTypeButtons (buttonComponentsOf components) .phone_number).length > 0 ∨
         (subTypeButtons (buttonComponentsOf components) .url).length > 0)) →
      ((buttonComponentsOf components).map TemplateComponent.index).Nodup →
      (∃ b1 ∈ buttonComponentsOf components, ∃ b2 ∈ buttonComponentsOf components,
        b1 ≠ b2 ∧ firstParameterText b1 = none ∧ firstParameterText b2 = none) →
      validateTemplateComponents components = .error .duplicateButtonTexts) := by
  constructor
  · intro components hq hp hu hc h5 h6 hlen2 hnone
    have hnn : ¬ ((buttonComponentsOf components).map TemplateComponent.index).Nodup := by
      intro hnd
      rcases hb : buttonComponentsOf components with _ | ⟨b0, rest0⟩
      · rw [hb] at hlen2; simp at hlen2
      · rcases rest0 with _ | ⟨b1, rest⟩
        · rw [hb] at hlen2; simp at hlen2
        · have hi0 : b0.index = none := hnone b0 (by rw [hb]; simp)
          have hi1 : b1.index = none := hnone b1 (by rw [hb]; simp)
          rw [hb, List.map_cons, List.map_cons, hi0, hi1] at hnd
          exact (List.nodup_cons.mp hnd).1 (List.mem_cons_self _ _)
    exact validateTemplateComponents_of_button_error (by omega)
      (validateButtonComponents_dup_index _ hq hp hu hc h5 h6 hnn)
  · rintro components hq hp hu hc h5 h6 hidx ⟨b1, hb1m, b2, hb2m, hneq, ht1, ht2⟩
    have hnn := not_nodup_map_of_two firstParameterText hb1m hb2m hneq (ht1.trans ht2.symm)
    have hbs : (buttonComponentsOf components).length > 0 :=
      List.length_pos.mpr (List.ne_nil_of_mem hb1m)
    exact validateTemplateComponents_of_button_error hbs
      (validateButtonComponents_dup_text _ hq hp hu hc h5 h6 hidx hnn)

/-- C10, witness: two buttons with no `index` at all fail as duplicate
indices; two buttons (distinct indices) with no parameters at all fail as
duplicate texts. -/
theorem claim_C10_witness :
    validateTemplateComponents twoButtonsWithoutIndex = .error .duplicateButtonIndices
    ∧ validateTemplateComponents twoButtonsWithoutText = .error .duplicateButtonTexts :=
  ⟨claim_C10_raw_uniqueness.1 _ (by decide) (by decide) (by decide) (by decide) (by decide)
      (by decide) (by decide) (by decide),
   claim_C10_raw_uniqueness.2 _ (by decide) (by decide) (by decide) (by decide) (by decide)
      (by decide) (by decide) (by decide)⟩

end SendZen
